import Mathlib

/-!
Verification development for the IaC generator application
(multi-mode configuration / preview / deploy console).

The development shallowly embeds:
* the durable configuration store with versioned import/export,
* the top-level wizard controller state held by the App components,
* the deployment record tracker and its controller wiring,
* the template generators,
* the auto-refresh timer logic of the resource monitoring view,
* the authentication context sign-up / sign-in guards.

Definitions whose doc comment starts with "Modelled from the spec" embed
components of the repository whose implementation files are not part of the
provided sources (only their callers are); they follow the specification
text for those components.  All other definitions are translated directly
from the TypeScript sources.
-/

/-! ## Core data model (App.tsx) -/

inductive DeploymentMode
  | infrastructure
  | application
deriving DecidableEq, Repr

inductive InfraTab
  | config
  | terraform
  | github
  | deploy
deriving DecidableEq, Repr

inductive AppTab
  | k8sConfig
  | k8sManifest
  | k8sGithub
  | k8sDeploy
deriving DecidableEq, Repr

inductive MainTab
  | infrastructure
  | application
  | history
  | configurations
deriving DecidableEq, Repr

structure TerraformConfig where
  projectId : String
  clusterName : String
  region : String
  nodeCount : Int
  machineType : String
  diskSize : Int
  enableAutoscaling : Bool
  minNodes : Int
  maxNodes : Int
deriving DecidableEq, Repr

structure GitHubConfig where
  token : String
  owner : String
  repo : String
deriving DecidableEq, Repr

inductive ManifestType
  | frontend
  | backend
  | secrets
  | ingress
  | dbInitJob
deriving DecidableEq, Repr

/-- One manifest entry of the application configuration: a type tag, an
enabled flag and arbitrary key-value settings (the Record of the source,
modelled as an association list of strings). -/
structure ManifestConfig where
  type : ManifestType
  enabled : Bool
  config : List (String × String)
deriving DecidableEq, Repr

/-- The application-mode configuration (manifest-list shape of App.tsx).
The source field named with the Kubernetes namespace keyword is called
ns here because Lean reserves that word. -/
structure K8sConfig where
  projectId : String
  clusterName : String
  region : String
  zone : String
  ns : String
  manifests : List ManifestConfig
deriving DecidableEq, Repr

inductive DeployStatus
  | idle
  | deploying
  | success
  | error
deriving DecidableEq, Repr

inductive RecStatus
  | pending
  | success
  | failed
deriving DecidableEq, Repr

/-- The full persisted application state as returned by loadAppState. -/
structure FullAppState where
  terraformConfig : TerraformConfig
  githubConfig : GitHubConfig
  k8sConfig : K8sConfig
  k8sGithubConfig : GitHubConfig
  deploymentMode : DeploymentMode
  activeInfraTab : InfraTab
  activeAppTab : AppTab
deriving DecidableEq, Repr

/-! ## Persistent configuration store (utils/storage)

Modelled from the spec: the storage utility module is not among the
provided source files, only its callers in App.tsx are.  Per the spec the
durable store is a flat mapping of one key per logical field; load returns
defaults for any field never previously saved; export serializes the entire
state tagged with a format version; import rejects a missing or foreign
version tag and otherwise replaces the whole state as a single unit. -/

/-- One durable key per logical field; a field holds none when the key was
never written (or was unparseable, which load treats as absent). -/
structure Store where
  terraformConfig : Option TerraformConfig
  githubConfig : Option GitHubConfig
  k8sConfig : Option K8sConfig
  k8sGithubConfig : Option GitHubConfig
  deploymentMode : Option DeploymentMode
  activeTabs : Option (InfraTab × AppTab)
  lastSaved : Option Nat
deriving DecidableEq, Repr

def Store.empty : Store :=
  ⟨none, none, none, none, none, none, none⟩

/-- Modelled from the spec: the default InfrastructureConfig literals
(nodeCount 3, minNodes 1, maxNodes 5, autoscaling off). -/
def defaultTerraformConfig : TerraformConfig :=
  { projectId := ""
    clusterName := "my-gke-cluster"
    region := "us-central1"
    nodeCount := 3
    machineType := "e2-medium"
    diskSize := 100
    enableAutoscaling := false
    minNodes := 1
    maxNodes := 5 }

def defaultGitHubConfig : GitHubConfig :=
  { token := "", owner := "", repo := "" }

def defaultK8sConfig : K8sConfig :=
  { projectId := ""
    clusterName := "my-gke-cluster"
    region := "us-central1"
    zone := "us-central1-a"
    ns := "default"
    manifests := [] }

/-- Modelled from the spec: loadAppState returns defaults for any field
never previously saved and never fails. -/
def loadAppState (s : Store) : FullAppState :=
  { terraformConfig := s.terraformConfig.getD defaultTerraformConfig
    githubConfig := s.githubConfig.getD defaultGitHubConfig
    k8sConfig := s.k8sConfig.getD defaultK8sConfig
    k8sGithubConfig := s.k8sGithubConfig.getD defaultGitHubConfig
    deploymentMode := s.deploymentMode.getD DeploymentMode.infrastructure
    activeInfraTab := (s.activeTabs.getD (InfraTab.config, AppTab.k8sConfig)).1
    activeAppTab := (s.activeTabs.getD (InfraTab.config, AppTab.k8sConfig)).2 }

/-- The format-version tag carried by an export bundle. -/
def configVersion : String := "1.0"

/-- A parsed export bundle: the version field may be missing; a text that
does not parse at all is represented upstream by none of Option RawBundle. -/
structure RawBundle where
  version : Option String
  state : FullAppState
deriving DecidableEq, Repr

/-- Modelled from the spec: exportConfiguration serializes the entire
FullAppState to a single bundle tagged with the format version. -/
def exportConfiguration (s : Store) : RawBundle :=
  { version := some configVersion, state := loadAppState s }

/-- Writing every durable key at once, as a successful import does; the
last-saved marker is stamped with the current time. -/
def Store.writeAllKeys (st : FullAppState) (now : Nat) : Store :=
  { terraformConfig := some st.terraformConfig
    githubConfig := some st.githubConfig
    k8sConfig := some st.k8sConfig
    k8sGithubConfig := some st.k8sGithubConfig
    deploymentMode := some st.deploymentMode
    activeTabs := some (st.activeInfraTab, st.activeAppTab)
    lastSaved := some now }

/-- Modelled from the spec: importConfiguration parses the bundle; on
success it replaces the entire durable state atomically and returns true;
on any parse failure or missing / unrecognized version tag it leaves the
existing state untouched and returns false. -/
def importConfiguration (inp : Option RawBundle) (now : Nat) (s : Store) :
    Bool × Store :=
  match inp with
  | none => (false, s)
  | some b =>
    match b.version with
    | none => (false, s)
    | some v =>
      if v = configVersion then (true, Store.writeAllKeys b.state now)
      else (false, s)

/-- Modelled from the spec: each save writes one logical field and stamps
the last-saved marker. -/
def saveTerraformConfig (c : TerraformConfig) (now : Nat) (s : Store) : Store :=
  { s with terraformConfig := some c, lastSaved := some now }

def saveGitHubConfig (c : GitHubConfig) (now : Nat) (s : Store) : Store :=
  { s with githubConfig := some c, lastSaved := some now }

def saveK8sConfig (c : K8sConfig) (now : Nat) (s : Store) : Store :=
  { s with k8sConfig := some c, lastSaved := some now }

def saveK8sGitHubConfig (c : GitHubConfig) (now : Nat) (s : Store) : Store :=
  { s with k8sGithubConfig := some c, lastSaved := some now }

def saveDeploymentMode (m : DeploymentMode) (now : Nat) (s : Store) : Store :=
  { s with deploymentMode := some m, lastSaved := some now }

def saveActiveTab (it : InfraTab) (at2 : AppTab) (now : Nat) (s : Store) : Store :=
  { s with activeTabs := some (it, at2), lastSaved := some now }

/-! ## Wizard controller in-memory state (AppContent of App.tsx) -/

/-- The component state of AppContent that the verified handlers touch. -/
structure AppMem where
  mainTab : MainTab
  deploymentMode : DeploymentMode
  activeInfraTab : InfraTab
  activeAppTab : AppTab
  terraformConfig : TerraformConfig
  githubConfig : GitHubConfig
  k8sConfig : K8sConfig
  k8sGithubConfig : GitHubConfig
  deploymentStatus : DeployStatus
  currentDeploymentId : Option Nat
deriving DecidableEq, Repr

/-- The auto-save effects of App.tsx: every configuration field change is
persisted through the save functions of the storage module. -/
def autoSaveEffects (m : AppMem) (now : Nat) (s : Store) : Store :=
  saveActiveTab m.activeInfraTab m.activeAppTab now
    (saveDeploymentMode m.deploymentMode now
      (saveK8sGitHubConfig m.k8sGithubConfig now
        (saveK8sConfig m.k8sConfig now
          (saveGitHubConfig m.githubConfig now
            (saveTerraformConfig m.terraformConfig now s)))))

/-- The durable store mirrors the in-memory configuration, as it does after
the auto-save effects have run. -/
def synced (m : AppMem) (s : Store) : Prop :=
  s.terraformConfig = some m.terraformConfig
  ∧ s.githubConfig = some m.githubConfig
  ∧ s.k8sConfig = some m.k8sConfig
  ∧ s.k8sGithubConfig = some m.k8sGithubConfig
  ∧ s.deploymentMode = some m.deploymentMode
  ∧ s.activeTabs = some (m.activeInfraTab, m.activeAppTab)

/-- handleImportConfig of App.tsx: run importConfiguration on the parsed
file content; on success reload the state and replace all seven in-memory
configuration fields; on failure only an alert is shown and nothing else
changes. -/
def handleImportConfig (inp : Option RawBundle) (now : Nat) (m : AppMem)
    (s : Store) : AppMem × Store :=
  let r := importConfiguration inp now s
  if r.1 then
    let st2 := loadAppState r.2
    ({ m with
        terraformConfig := st2.terraformConfig
        githubConfig := st2.githubConfig
        k8sConfig := st2.k8sConfig
        k8sGithubConfig := st2.k8sGithubConfig
        deploymentMode := st2.deploymentMode
        activeInfraTab := st2.activeInfraTab
        activeAppTab := st2.activeAppTab }, r.2)
  else (m, r.2)

/-- handleDeploymentModeChange of App.tsx: switch the deployment mode,
reset the visible deployment status indicator to idle, and align the main
tab with the chosen mode. -/
def handleDeploymentModeChange (mode : DeploymentMode) (m : AppMem) : AppMem :=
  { m with
      deploymentMode := mode
      deploymentStatus := DeployStatus.idle
      mainTab :=
        match mode with
        | DeploymentMode.infrastructure => MainTab.infrastructure
        | DeploymentMode.application => MainTab.application }

/-! ## Deployment record tracker (utils/basicDeploymentTracking)

Modelled from the spec: the tracking utility module is not among the
provided source files, only its callers in App.tsx are.  Per the spec,
recordStart generates a fresh unique id, stamps the creation time, appends
a pending record to the durable log and returns it; updateStatus finds a
record by id, is a no-op when the id is absent, and otherwise sets the
terminal status and a completion timestamp. -/

structure DeploymentRecord where
  id : Nat
  deployment_type : DeploymentMode
  project_name : String
  configuration : String
  status : RecStatus
  github_repo : Option String
  workflow_url : Option String
  notes : String
  created_at : Nat
  completed_at : Option Nat
deriving DecidableEq, Repr

/-- Modelled from the spec: saveBasicDeployment builds the fresh pending
record appended by recordStart. -/
def saveBasicDeployment (freshId : Nat) (t : DeploymentMode)
    (pname cfg : String) (repo url : Option String) (notes : String)
    (now : Nat) : DeploymentRecord :=
  { id := freshId
    deployment_type := t
    project_name := pname
    configuration := cfg
    status := RecStatus.pending
    github_repo := repo
    workflow_url := url
    notes := notes
    created_at := now
    completed_at := none }

/-- Modelled from the spec: updateBasicDeploymentStatus sets the status and
completion timestamp of the record with the given id, and is a no-op when
no record carries that id. -/
def updateBasicDeploymentStatus (i : Nat) (st : RecStatus) (now : Nat)
    (log : List DeploymentRecord) : List DeploymentRecord :=
  log.map (fun r =>
    if r.id = i then { r with status := st, completed_at := some now } else r)

/-- The controller state relevant to deployment tracking: the durable log,
the fresh-id counter of the tracker, and the currentDeploymentId and
deploymentStatus component state of AppContent. -/
structure DeploySys where
  log : List DeploymentRecord
  nextId : Nat
  currentDeploymentId : Option Nat
  deploymentStatus : DeployStatus
deriving DecidableEq, Repr

def DeploySys.init : DeploySys :=
  { log := [], nextId := 0, currentDeploymentId := none,
    deploymentStatus := DeployStatus.idle }

/-- handleDeploymentStart of App.tsx: record the newly triggered deployment
as a pending record and remember its id as the current deployment. -/
def handleDeploymentStart (t : DeploymentMode) (pname cfg : String)
    (repo url : Option String) (userName : String) (now : Nat)
    (s : DeploySys) : DeploySys :=
  let d := saveBasicDeployment s.nextId t pname cfg repo url
    ("deployment started via IaC Generator by " ++ userName) now
  { s with
      log := d :: s.log
      nextId := s.nextId + 1
      currentDeploymentId := some d.id }

/-- handleDeploymentStatusChange of App.tsx: update the visible status; when
a current deployment exists and the new status is terminal, mark that record
success or failed and clear the current deployment id. -/
def handleDeploymentStatusChange (st : DeployStatus) (now : Nat)
    (s : DeploySys) : DeploySys :=
  match s.currentDeploymentId with
  | some i =>
    if st ≠ DeployStatus.idle ∧ st ≠ DeployStatus.deploying then
      { s with
          deploymentStatus := st
          log := updateBasicDeploymentStatus i
            (if st = DeployStatus.success then RecStatus.success
             else RecStatus.failed) now s.log
          currentDeploymentId := none }
    else { s with deploymentStatus := st }
  | none => { s with deploymentStatus := st }

inductive DepEvent
  | start (t : DeploymentMode) (pname cfg : String) (repo url : Option String)
      (userName : String) (now : Nat)
  | statusChange (st : DeployStatus) (now : Nat)

def stepDep (s : DeploySys) : DepEvent → DeploySys
  | DepEvent.start t p c r u un now => handleDeploymentStart t p c r u un now s
  | DepEvent.statusChange st now => handleDeploymentStatusChange st now s

def runDep (es : List DepEvent) : DeploySys :=
  es.foldl stepDep DeploySys.init

/-- The status of the record with the given id in a log (none when absent). -/
def statusOf : List DeploymentRecord → Nat → Option RecStatus
  | [], _ => none
  | r :: rs, q => if r.id = q then some r.status else statusOf rs q

/-- The permitted evolution of one record status across a single controller
step: an absent record may only appear as pending; a pending record stays
present; a terminal record never changes again. -/
def recStatusStep : Option RecStatus → Option RecStatus → Prop
  | none, n2 => n2 = none ∨ n2 = some RecStatus.pending
  | some RecStatus.pending, n2 => n2.isSome = true
  | some RecStatus.success, n2 => n2 = some RecStatus.success
  | some RecStatus.failed, n2 => n2 = some RecStatus.failed

/-- Invariant of the deployment system: ids at or above the fresh-id
counter are unused, and the current deployment id always points at a
pending record. -/
def DepInv (s : DeploySys) : Prop :=
  (∀ j, s.nextId ≤ j → statusOf s.log j = none)
  ∧ (∀ i, s.currentDeploymentId = some i →
      statusOf s.log i = some RecStatus.pending)

/-! ## Workflow trigger outcome (WorkflowStatus component)

Modelled from the spec: the WorkflowStatus / K8sWorkflowStatus components
are not among the provided source files, only their instantiation in
App.tsx is.  Per the spec, trigger fails with AuthError, NotFoundError or
NetworkError, each surfaced as a status message with the deployment status
set to error; only on trigger success does the controller record a
deployment (onDeploymentStart, wired to handleDeploymentStart). -/

inductive TriggerResult
  | ok (workflowUrl : String)
  | authError
  | notFoundError
  | networkError
deriving DecidableEq, Repr

/-- Modelled from the spec: the deploy action of the WorkflowStatus screen.
On trigger success the status becomes deploying and the deployment is
recorded; on any trigger failure the status becomes error and no record is
created. -/
def deployAction (res : TriggerResult) (t : DeploymentMode)
    (pname cfg repo userName : String) (now : Nat) (s : DeploySys) :
    DeploySys :=
  match res with
  | TriggerResult.ok url =>
    handleDeploymentStart t pname cfg (some repo) (some url) userName now
      { s with deploymentStatus := DeployStatus.deploying }
  | TriggerResult.authError => { s with deploymentStatus := DeployStatus.error }
  | TriggerResult.notFoundError => { s with deploymentStatus := DeployStatus.error }
  | TriggerResult.networkError => { s with deploymentStatus := DeployStatus.error }

/-! ## Template generators (TerraformPreview / K8sManifestPreview)

Modelled from the spec: the preview components holding the generators are
not among the provided source files.  Per the spec the generators are pure
stateless functions of the configuration; the ambient world (wall clock,
randomness) is passed explicitly here so that independence from it is a
statable property.  Autoscaling bounds appear only when the autoscaling
flag is enabled; disabled manifest entries are omitted entirely. -/

/-- The ambient world a browser call could observe: current time and a
randomness seed. -/
structure World where
  now : Nat
  seed : Nat
deriving DecidableEq, Repr

/-- Modelled from the spec: renderInfrastructureTemplate maps the
infrastructure configuration to generated Terraform text; every field is
handled structurally and the autoscaling bounds are emitted only when the
autoscaling flag is enabled. -/
def renderInfrastructureTemplate (_w : World) (c : TerraformConfig) : String :=
  "project = " ++ c.projectId ++ "\n" ++
  "cluster_name = " ++ c.clusterName ++ "\n" ++
  "region = " ++ c.region ++ "\n" ++
  "node_count = " ++ toString c.nodeCount ++ "\n" ++
  "machine_type = " ++ c.machineType ++ "\n" ++
  "disk_size_gb = " ++ toString c.diskSize ++ "\n" ++
  (if c.enableAutoscaling then
    "autoscaling_min_nodes = " ++ toString c.minNodes ++ "\n" ++
    "autoscaling_max_nodes = " ++ toString c.maxNodes ++ "\n"
   else "")

/-- Look up one key of a manifest entry's key-value settings. -/
def getSetting (m : ManifestConfig) (k d : String) : String :=
  ((m.config.find? (fun kv => kv.1 == k)).map (fun kv => kv.2)).getD d

/-- Modelled from the spec: the YAML text of one manifest entry, a tagged
variant per manifest type rendered from the shared configuration and the
entry's own settings. -/
def renderManifest (c : K8sConfig) (m : ManifestConfig) : String :=
  match m.type with
  | ManifestType.frontend =>
    "kind: Deployment\nname: frontend\nnamespace: " ++ c.ns ++
    "\nimage: " ++ getSetting m "image" "nginx:latest" ++
    "\nreplicas: " ++ getSetting m "replicas" "1" ++ "\n---\n"
  | ManifestType.backend =>
    "kind: Deployment\nname: backend\nnamespace: " ++ c.ns ++
    "\nimage: " ++ getSetting m "image" "backend:latest" ++
    "\nport: " ++ getSetting m "port" "8080" ++ "\n---\n"
  | ManifestType.secrets =>
    "kind: Secret\nname: app-secrets\nnamespace: " ++ c.ns ++
    "\ndata: " ++ getSetting m "data" "" ++ "\n---\n"
  | ManifestType.ingress =>
    "kind: Ingress\nname: app-ingress\nnamespace: " ++ c.ns ++
    "\nhost: " ++ getSetting m "domain" "" ++ "\n---\n"
  | ManifestType.dbInitJob =>
    "kind: Job\nname: db-init\nnamespace: " ++ c.ns ++
    "\nimage: " ++ getSetting m "image" "migrate:latest" ++ "\n---\n"

/-- Modelled from the spec: renderApplicationManifests maps the application
configuration to generated Kubernetes YAML; only enabled manifest entries
are rendered, disabled ones are omitted entirely (not as comments). -/
def renderApplicationManifests (_w : World) (c : K8sConfig) : String :=
  "kind: Namespace\nname: " ++ c.ns ++ "\ncluster: " ++ c.clusterName ++
  "\nproject: " ++ c.projectId ++ "\n---\n" ++
  String.join ((c.manifests.filter (fun m => m.enabled)).map (renderManifest c))

/-! ## Auto-refresh polling (ResourceMonitoring component)

The ResourceMonitoring view keeps a repeating 30-second timer while the
auto-refresh checkbox is checked.  The effect below embeds the React
semantics of its useEffect hook with dependency list [autoRefresh]: when
the flag changes, the cleanup closure of the previous effect run executes
first (it captured the refreshInterval state value of the render it was
created in), then the effect body runs against the current state snapshot,
creating an interval when the flag is on and clearing the recorded interval
when the flag is off. -/

structure MonState where
  autoRefresh : Bool
  refreshInterval : Option Nat
  capturedRI : Option Nat
  live : List Nat
  nextId : Nat
deriving DecidableEq, Repr

/-- Mount state: the initial effect run sees autoRefresh false and a null
interval, so it does nothing and its cleanup captures null. -/
def MonState.init : MonState :=
  { autoRefresh := false, refreshInterval := none, capturedRI := none,
    live := [], nextId := 0 }

/-- clearInterval on the id recorded in a closure; a null handle clears
nothing, and clearing an id that is no longer live is a no-op. -/
def clearIntervalOn (l : List Nat) : Option Nat → List Nat
  | some i => l.erase i
  | none => l

/-- The auto-refresh checkbox change followed by the useEffect run: when
the flag value does not change, React skips the effect; otherwise the
previous cleanup fires first and then the effect body runs. -/
def setAutoRefresh (b : Bool) (s : MonState) : MonState :=
  if b = s.autoRefresh then s
  else
    let live1 := clearIntervalOn s.live s.capturedRI
    if b then
      { autoRefresh := b
        refreshInterval := some s.nextId
        capturedRI := s.refreshInterval
        live := s.nextId :: live1
        nextId := s.nextId + 1 }
    else
      match s.refreshInterval with
      | some i =>
        { autoRefresh := b, refreshInterval := none,
          capturedRI := s.refreshInterval, live := live1.erase i,
          nextId := s.nextId }
      | none =>
        { autoRefresh := b, refreshInterval := none,
          capturedRI := s.refreshInterval, live := live1,
          nextId := s.nextId }

def runMon (bs : List Bool) : MonState :=
  bs.foldl (fun s b => setAutoRefresh b s) MonState.init

/-- Invariant of the monitoring view: with auto-refresh on exactly the one
recorded interval is live; with auto-refresh off no interval is live. -/
def MonInv (s : MonState) : Prop :=
  (s.autoRefresh = false → s.refreshInterval = none ∧ s.live = [])
  ∧ (s.autoRefresh = true → ∃ i, s.refreshInterval = some i ∧ s.live = [i])

/-! ## Rendering gates of the two App variants (App.tsx) -/

/-- The screen produced by the first App variant, which has no
authentication at all: it always renders the wizard keyed on the deployment
mode and the active tabs. -/
inductive V1Screen
  | wizard (mode : DeploymentMode) (it : InfraTab) (at2 : AppTab)
deriving DecidableEq, Repr

/-- The render function of the first App variant in App.tsx: the wizard,
configuration, preview and deploy screens are produced unconditionally;
no user identity exists in this variant. -/
def appV1View (m : FullAppState) : V1Screen :=
  V1Screen.wizard m.deploymentMode m.activeInfraTab m.activeAppTab

/-- The authenticated user of the basic auth context: the core only ever
checks its presence; name and email are displayed, the credential is not
inspected. -/
structure BasicUser where
  name : String
  email : String
deriving DecidableEq, Repr

inductive V2Screen
  | auth
  | main (mt : MainTab) (it : InfraTab) (at2 : AppTab)
deriving DecidableEq, Repr

/-- The render function of AppContent in App.tsx: when the user is null the
authentication screen is returned before any other markup; only with a
user present is the main screen with the wizard reachable. -/
def appContentView (user : Option BasicUser) (m : AppMem) : V2Screen :=
  match user with
  | none => V2Screen.auth
  | some _ => V2Screen.main m.mainTab m.activeInfraTab m.activeAppTab

/-! ## Authentication context (AuthContext, provided source)

A direct embedding of signUp and signIn of the supabase-backed auth
context.  The remote service is an explicit oracle; each remote call can
return data, return an error value, or throw, and the embedding threads the
number of remote auth calls made.  A thrown exception inside the body is
represented by the error side of Except and is converted by the catch-all
handler into a returned error value. -/

/-- The JavaScript whitespace class used by the backslash-s of the email
regular expression. -/
def isJsSpace (c : Char) : Bool :=
  (c == ' ') || (c == '\t') || (c == '\n') || (c == '\r') ||
  (c.toNat == 11) || (c.toNat == 12) || (c.toNat == 160) ||
  (c.toNat == 5760) ||
  (decide (8192 ≤ c.toNat) && decide (c.toNat ≤ 8202)) ||
  (c.toNat == 8232) || (c.toNat == 8233) || (c.toNat == 8239) ||
  (c.toNat == 8287) || (c.toNat == 12288) || (c.toNat == 65279)

/-- A character admitted by the bracket class excluding whitespace and the
at sign. -/
def isAtomChar (c : Char) : Bool :=
  !(isJsSpace c) && !(c == '@')

/-- Split a character list on every at sign. -/
def splitAtSign : List Char → List (List Char)
  | [] => [[]]
  | c :: cs =>
    let r := splitAtSign cs
    if c = '@' then [] :: r
    else
      match r with
      | [] => [[c]]
      | h :: t => (c :: h) :: t

/-- The tail part must contain a dot that is neither its first nor its last
character, so that both surrounding runs are nonempty. -/
def hasInnerDot (l : List Char) : Bool :=
  (List.range l.length).any (fun i =>
    decide (0 < i) && decide (i + 1 < l.length) && (l.getD i ' ' == '.'))

/-- The anchored email regular expression of signUp: one nonempty run of
non-space non-at characters, an at sign, then a nonempty run, a dot and a
final nonempty run of the same class. -/
def emailRegexTest (s : String) : Bool :=
  match splitAtSign s.data with
  | [a, t] => !(a.isEmpty) && a.all isAtomChar && t.all isAtomChar && hasInnerDot t
  | _ => false

/-- The hard-coded placeholder addresses rejected by signUp. -/
def testEmails : List String :=
  ["test@example.com", "user@example.com", "admin@example.com"]

/-- The substring test of the JavaScript String includes method. -/
def includesStr (s pat : String) : Bool :=
  decide ((s.splitOn pat).length ≠ 1)

/-- An outcome of one remote call: data, a returned error value, or a
thrown exception. -/
inductive JsOutcome (α : Type)
  | ok (a : α)
  | err (message : String)
  | exn (e : String)

structure AuthUser where
  id : String
  email : Option String
deriving DecidableEq, Repr

structure SignUpResp where
  user : Option AuthUser
deriving DecidableEq, Repr

/-- The remote supabase collaborator as an oracle over the calls the auth
context makes. -/
structure SupabaseOracle where
  authSignUp : String → String → String → JsOutcome SignUpResp
  profileInsert : String → String → String → JsOutcome Unit
  authSignIn : String → String → JsOutcome Unit

/-- The value returned to the caller of signUp and signIn: an error message
or null. -/
structure AuthResult where
  error : Option String
deriving DecidableEq, Repr

/-- The body of signUp inside its try block, paired with the number of
remote auth calls made; the error side of Except is an exception escaping
the body. -/
def signUpCore (o : SupabaseOracle) (email pw fullName : String) :
    Except (String × Nat) (AuthResult × Nat) :=
  if !(emailRegexTest email) then
    Except.ok ({ error := some "Please enter a valid email address" }, 0)
  else if testEmails.contains email.toLower then
    Except.ok
      ({ error := some "Please use a real email address instead of a placeholder email" }, 0)
  else
    match o.authSignUp email pw fullName with
    | JsOutcome.exn e => Except.error (e, 1)
    | JsOutcome.err msg =>
      if includesStr msg "email_address_invalid" then
        Except.ok ({ error := some "Please enter a valid email address" }, 1)
      else if includesStr msg "weak_password" then
        Except.ok
          ({ error := some "Password is too weak. Please choose a stronger password." }, 1)
      else Except.ok ({ error := some msg }, 1)
    | JsOutcome.ok resp =>
      match resp.user with
      | some u =>
        match o.profileInsert u.id (u.email.getD email) fullName with
        | _ => Except.ok ({ error := none }, 1)
      | none => Except.ok ({ error := none }, 1)

/-- signUp of the auth context: the try body with its catch-all handler,
which turns any escaped exception into a returned error value. -/
def signUp (o : SupabaseOracle) (email pw fullName : String) :
    AuthResult × Nat :=
  match signUpCore o email pw fullName with
  | Except.ok r => r
  | Except.error (_, n) =>
    ({ error := some "An unexpected error occurred during signup" }, n)

/-- The body of signIn inside its try block. -/
def signInCore (o : SupabaseOracle) (email pw : String) :
    Except (String × Nat) (AuthResult × Nat) :=
  match o.authSignIn email pw with
  | JsOutcome.exn e => Except.error (e, 1)
  | JsOutcome.err msg =>
    if includesStr msg "email_not_confirmed" then
      Except.ok
        ({ error := some "Please check your email and click the confirmation link before signing in" }, 1)
    else if includesStr msg "invalid_credentials" then
      Except.ok ({ error := some "Invalid email or password" }, 1)
    else Except.ok ({ error := some msg }, 1)
  | JsOutcome.ok _ => Except.ok ({ error := none }, 1)

/-- signIn of the auth context with its catch-all handler. -/
def signIn (o : SupabaseOracle) (email pw : String) : AuthResult × Nat :=
  match signInCore o email pw with
  | Except.ok r => r
  | Except.error (_, n) =>
    ({ error := some "An unexpected error occurred during sign in" }, n)

/-! ## Concrete fixtures used by the witnesses -/

def oracleW : SupabaseOracle :=
  { authSignUp := fun _ _ _ => JsOutcome.ok { user := none }
    profileInsert := fun _ _ _ => JsOutcome.ok ()
    authSignIn := fun _ _ => JsOutcome.ok () }

def memW : AppMem :=
  { mainTab := MainTab.infrastructure
    deploymentMode := DeploymentMode.infrastructure
    activeInfraTab := InfraTab.config
    activeAppTab := AppTab.k8sConfig
    terraformConfig := defaultTerraformConfig
    githubConfig := defaultGitHubConfig
    k8sConfig := defaultK8sConfig
    k8sGithubConfig := defaultGitHubConfig
    deploymentStatus := DeployStatus.idle
    currentDeploymentId := none }

def storeW : Store :=
  { terraformConfig := some defaultTerraformConfig
    githubConfig := some defaultGitHubConfig
    k8sConfig := some defaultK8sConfig
    k8sGithubConfig := some defaultGitHubConfig
    deploymentMode := some DeploymentMode.infrastructure
    activeTabs := some (InfraTab.config, AppTab.k8sConfig)
    lastSaved := some 0 }

def manifestDisabledW : ManifestConfig :=
  { type := ManifestType.ingress, enabled := false,
    config := [("domain", "example.com")] }

def manifestDisabledW2 : ManifestConfig :=
  { type := ManifestType.secrets, enabled := false,
    config := [("data", "c2VjcmV0")] }

def k8sW : K8sConfig :=
  { projectId := "proj", clusterName := "cl", region := "us-central1",
    zone := "us-central1-a", ns := "apps",
    manifests :=
      [ { type := ManifestType.frontend, enabled := true,
          config := [("image", "web:1")] },
        manifestDisabledW ] }

/-! ## Theorems -/

/-- A successful import writes every key, and loading the store afterwards
returns exactly the imported state. -/
theorem loadAppState_writeAllKeys (st : FullAppState) (now : Nat) :
    loadAppState (Store.writeAllKeys st now) = st := rfl

/-- C1: importConfiguration is atomic: either it returns true and the whole
durable state together with the seven in-memory configuration fields is
replaced by the bundle contents as a single unit, or it returns false (any
parse or version-mismatch failure) and every durable key and the in-memory
state are exactly as they were before the call. -/
theorem importConfiguration_atomic (inp : Option RawBundle) (now : Nat)
    (m : AppMem) (s : Store) :
    (∃ b, inp = some b ∧ b.version = some configVersion ∧
      importConfiguration inp now s = (true, Store.writeAllKeys b.state now) ∧
      handleImportConfig inp now m s =
        ({ m with
            terraformConfig := b.state.terraformConfig
            githubConfig := b.state.githubConfig
            k8sConfig := b.state.k8sConfig
            k8sGithubConfig := b.state.k8sGithubConfig
            deploymentMode := b.state.deploymentMode
            activeInfraTab := b.state.activeInfraTab
            activeAppTab := b.state.activeAppTab },
          Store.writeAllKeys b.state now))
    ∨ (importConfiguration inp now s = (false, s)
        ∧ handleImportConfig inp now m s = (m, s)) := by
  cases inp with
  | none => exact Or.inr ⟨rfl, rfl⟩
  | some b =>
    cases hv : b.version with
    | none =>
      refine Or.inr ⟨?_, ?_⟩ <;>
        simp [importConfiguration, handleImportConfig, hv]
    | some v =>
      by_cases hveq : v = configVersion
      · subst hveq
        refine Or.inl ⟨b, rfl, hv, ?_, ?_⟩ <;>
          simp [importConfiguration, handleImportConfig, hv,
            loadAppState_writeAllKeys]
      · refine Or.inr ⟨?_, ?_⟩ <;>
          simp [importConfiguration, handleImportConfig, hv, hveq]

/-- C2: for a reachable state (the durable store mirrors the in-memory
configuration, as after auto-save), exporting and immediately importing the
produced bundle restores an in-memory state equal in every field to the
state before the export. -/
theorem exportImport_roundTrip (m : AppMem) (s : Store) (now : Nat)
    (h : synced m s) :
    (handleImportConfig (some (exportConfiguration s)) now m s).1 = m := by
  obtain ⟨h1, h2, h3, h4, h5, h6⟩ := h
  simp [handleImportConfig, importConfiguration, exportConfiguration,
    loadAppState, Store.writeAllKeys, h1, h2, h3, h4, h5, h6]

/-- Witness for C2 at a concrete synced memory and store pair. -/
theorem exportImport_roundTrip_witness :
    (handleImportConfig (some (exportConfiguration storeW)) 7 memW storeW).1
      = memW :=
  exportImport_roundTrip memW storeW 7 ⟨rfl, rfl, rfl, rfl, rfl, rfl⟩

/-- The auto-save effects establish the synced relation used by the C2
round-trip law, so every state that has auto-saved is covered. -/
theorem synced_autoSaveEffects (m : AppMem) (now : Nat) (s : Store) :
    synced m (autoSaveEffects m now s) :=
  ⟨rfl, rfl, rfl, rfl, rfl, rfl⟩

/-- C3: switching the deployment mode resets the visible deployment status
indicator to idle and leaves the infrastructure config, the application
config, both credential sets and both modes' tab positions unchanged. -/
theorem handleDeploymentModeChange_frame (mode : DeploymentMode) (m : AppMem) :
    (handleDeploymentModeChange mode m).deploymentStatus = DeployStatus.idle
    ∧ (handleDeploymentModeChange mode m).terraformConfig = m.terraformConfig
    ∧ (handleDeploymentModeChange mode m).k8sConfig = m.k8sConfig
    ∧ (handleDeploymentModeChange mode m).githubConfig = m.githubConfig
    ∧ (handleDeploymentModeChange mode m).k8sGithubConfig = m.k8sGithubConfig
    ∧ (handleDeploymentModeChange mode m).activeInfraTab = m.activeInfraTab
    ∧ (handleDeploymentModeChange mode m).activeAppTab = m.activeAppTab :=
  ⟨rfl, rfl, rfl, rfl, rfl, rfl, rfl⟩

/-- C5: a trigger failing with RemoteAuthError sets the visible deployment
status to error while appending no deployment record and leaving the
current deployment id untouched; the other failures also append nothing,
and only a successful trigger appends the fresh pending record, so
recordStart runs only after a successful trigger. -/
theorem trigger_authError_no_record (t : DeploymentMode)
    (pname cfg repo userName : String) (now : Nat) (s : DeploySys) :
    (deployAction TriggerResult.authError t pname cfg repo userName now s).deploymentStatus
        = DeployStatus.error
    ∧ (deployAction TriggerResult.authError t pname cfg repo userName now s).log = s.log
    ∧ (deployAction TriggerResult.authError t pname cfg repo userName now s).currentDeploymentId
        = s.currentDeploymentId
    ∧ (deployAction TriggerResult.notFoundError t pname cfg repo userName now s).log = s.log
    ∧ (deployAction TriggerResult.networkError t pname cfg repo userName now s).log = s.log
    ∧ ∀ url,
        (deployAction (TriggerResult.ok url) t pname cfg repo userName now s).log
          = saveBasicDeployment s.nextId t pname cfg (some repo) (some url)
              ("deployment started via IaC Generator by " ++ userName) now
            :: s.log :=
  ⟨rfl, rfl, rfl, rfl, rfl, fun _ => rfl⟩

/-- C6: the template generators are deterministic pure functions: the
generated text depends only on the configuration, not on the ambient world
(wall clock or randomness), so two calls with an identical config produce
byte-identical output. -/
theorem renderTemplates_deterministic (w1 w2 : World) (c : TerraformConfig)
    (ac : K8sConfig) :
    renderInfrastructureTemplate w1 c = renderInfrastructureTemplate w2 c
    ∧ renderApplicationManifests w1 ac = renderApplicationManifests w2 ac :=
  ⟨rfl, rfl⟩

/-- C9 counterexample: the first App variant in App.tsx involves no user
identity at all and renders the configuration wizard unconditionally from
the initial state, so not every rendering path to the wizard screens is
gated on a non-null user. -/
theorem appV1_renders_wizard_without_user :
    appV1View (loadAppState Store.empty)
      = V1Screen.wizard DeploymentMode.infrastructure InfraTab.config
          AppTab.k8sConfig := rfl

/-- C9 amended: in the authenticated variant (AppContent), all wizard,
configuration, preview and deploy functionality is unreachable while the
user identity is null: the render yields only the authentication screen. -/
theorem appContent_gated_on_user (m : AppMem) :
    appContentView none m = V2Screen.auth := rfl

/-- Rendering one manifest entry only reads the shared fields of the
configuration, so replacing the manifest list leaves it unchanged. -/
theorem renderManifest_manifests_irrel (cc : K8sConfig)
    (l : List ManifestConfig) (m : ManifestConfig) :
    renderManifest { cc with manifests := l } m = renderManifest cc m := rfl

/-- C7: disabled manifest entries are omitted from the generated text
entirely: the output equals the output for the configuration restricted to
its enabled entries, and replacing a disabled entry by any other disabled
entry leaves the output byte-identical, so no content of a disabled entry
ever appears in it. -/
theorem disabled_manifests_omitted (w : World) (c : K8sConfig)
    (l1 l2 : List ManifestConfig) (m1 m2 : ManifestConfig)
    (h1 : m1.enabled = false) (h2 : m2.enabled = false) :
    renderApplicationManifests w c
      = renderApplicationManifests w
          { c with manifests := c.manifests.filter (fun mm => mm.enabled) }
    ∧ renderApplicationManifests w { c with manifests := l1 ++ m1 :: l2 }
      = renderApplicationManifests w { c with manifests := l1 ++ m2 :: l2 } := by
  constructor
  · simp only [renderApplicationManifests, List.filter_filter,
      Bool.and_self]
    rfl
  · simp only [renderApplicationManifests, List.filter_append,
      List.filter_cons, h1, h2, Bool.false_eq_true, if_false]
    rfl

/-- Witness for C7 at a concrete configuration with two distinct disabled
entries. -/
theorem disabled_manifests_omitted_witness :
    renderApplicationManifests ⟨0, 0⟩ k8sW
      = renderApplicationManifests ⟨0, 0⟩
          { k8sW with manifests := k8sW.manifests.filter (fun mm => mm.enabled) }
    ∧ renderApplicationManifests ⟨0, 0⟩
        { k8sW with manifests := [] ++ manifestDisabledW :: [] }
      = renderApplicationManifests ⟨0, 0⟩
          { k8sW with manifests := [] ++ manifestDisabledW2 :: [] } :=
  disabled_manifests_omitted ⟨0, 0⟩ k8sW [] [] manifestDisabledW
    manifestDisabledW2 rfl rfl

/-- C10: signUp refuses any email that fails the anchored email pattern or
equals one of the hard-coded placeholder addresses case-insensitively,
returning a non-null error without invoking the remote authentication
service; and the catch-all handlers of signUp and signIn turn every escaped
exception into a returned error value, so neither ever throws. -/
theorem signUp_guards_invalid_email (o : SupabaseOracle)
    (email pw fullName : String)
    (h : emailRegexTest email = false
        ∨ testEmails.contains email.toLower = true) :
    ((signUp o email pw fullName).1.error.isSome = true
      ∧ (signUp o email pw fullName).2 = 0)
    ∧ (∀ o2 e2 p2 f2 ex n, signUpCore o2 e2 p2 f2 = Except.error (ex, n) →
        signUp o2 e2 p2 f2
          = ({ error := some "An unexpected error occurred during signup" }, n))
    ∧ (∀ o2 e2 p2 ex n, signInCore o2 e2 p2 = Except.error (ex, n) →
        signIn o2 e2 p2
          = ({ error := some "An unexpected error occurred during sign in" }, n)) := by
  refine ⟨?_, ?_, ?_⟩
  · by_cases hre : emailRegexTest email = true
    · have hcontains : testEmails.contains email.toLower = true := by
        rcases h with h | h
        · rw [hre] at h; exact absurd h (by simp)
        · exact h
      have hmem : email.toLower ∈ testEmails := by
        simpa using hcontains
      simp [signUp, signUpCore, hre, hmem]
    · have hre2 : emailRegexTest email = false := by
        cases hx : emailRegexTest email
        · rfl
        · exact absurd hx hre
      simp [signUp, signUpCore, hre2]
  · intro o2 e2 p2 f2 ex n hcore
    simp [signUp, hcore]
  · intro o2 e2 p2 ex n hcore
    simp [signIn, hcore]

/-- Witness for C10 at a concrete malformed email and a concrete oracle. -/
theorem signUp_guards_invalid_email_witness :
    ((signUp oracleW "not-an-email" "pw" "Test User").1.error.isSome = true
      ∧ (signUp oracleW "not-an-email" "pw" "Test User").2 = 0)
    ∧ (∀ o2 e2 p2 f2 ex n, signUpCore o2 e2 p2 f2 = Except.error (ex, n) →
        signUp o2 e2 p2 f2
          = ({ error := some "An unexpected error occurred during signup" }, n))
    ∧ (∀ o2 e2 p2 ex n, signInCore o2 e2 p2 = Except.error (ex, n) →
        signIn o2 e2 p2
          = ({ error := some "An unexpected error occurred during sign in" }, n)) :=
  signUp_guards_invalid_email oracleW "not-an-email" "pw" "Test User"
    (Or.inl (by decide))

/-- How updateBasicDeploymentStatus changes the status read back for any
id: the targeted id (when present) now reads the written status, every
other id is untouched; an absent id stays absent, so the update is a no-op
there. -/
theorem statusOf_update (l : List DeploymentRecord) (i j : Nat)
    (st : RecStatus) (now : Nat) :
    statusOf (updateBasicDeploymentStatus i st now l) j =
      if j = i then (statusOf l j).map (fun _ => st) else statusOf l j := by
  induction l with
  | nil =>
    simp [updateBasicDeploymentStatus, statusOf]
  | cons r rs ih =>
    have hcons : updateBasicDeploymentStatus i st now (r :: rs)
        = (if r.id = i then { r with status := st, completed_at := some now }
           else r) :: updateBasicDeploymentStatus i st now rs := rfl
    rw [hcons]
    by_cases hri : r.id = i
    · by_cases hji : j = i
      · subst hji
        simp [statusOf, hri]
      · have hij : i ≠ j := fun hh => hji hh.symm
        simp [statusOf, hri, hji, hij, ih]
    · by_cases hrj : r.id = j
      · have hji : j ≠ i := fun hh => hri (hrj.symm ▸ hh)
        simp [statusOf, hri, hrj, hji]
      · simp [statusOf, hri, hrj, ih]

/-- The permitted one-step evolution relation is reflexive: an unchanged
record status is always permitted. -/
theorem recStatusStep_refl (x : Option RecStatus) : recStatusStep x x := by
  cases x with
  | none => exact Or.inl rfl
  | some v => cases v <;> rfl

/-- The initial deployment system satisfies the tracking invariant. -/
theorem depInv_init : DepInv DeploySys.init := by
  constructor
  · intro j _
    rfl
  · intro i h
    simp [DeploySys.init] at h

/-- Every controller step preserves the tracking invariant: freshly drawn
ids stay unused and the current deployment id keeps pointing at a pending
record. -/
theorem depInv_step (s : DeploySys) (e : DepEvent) (h : DepInv s) :
    DepInv (stepDep s e) := by
  obtain ⟨h1, h2⟩ := h
  cases e with
  | start t p c r u un now =>
    constructor
    · intro j hj
      simp only [stepDep, handleDeploymentStart, saveBasicDeployment,
        statusOf] at hj ⊢
      have hne : s.nextId ≠ j := by omega
      rw [if_neg hne]
      exact h1 j (by omega)
    · intro i hi
      simp only [stepDep, handleDeploymentStart, saveBasicDeployment,
        Option.some.injEq] at hi
      subst hi
      simp [stepDep, handleDeploymentStart, saveBasicDeployment, statusOf]
  | statusChange st now =>
    cases hc : s.currentDeploymentId with
    | none =>
      constructor
      · intro j hj
        simp only [stepDep, handleDeploymentStatusChange, hc] at hj ⊢
        exact h1 j hj
      · intro i hi
        simp only [stepDep, handleDeploymentStatusChange, hc] at hi
        exact absurd hi (by simp)
    | some i =>
      by_cases hterm : st ≠ DeployStatus.idle ∧ st ≠ DeployStatus.deploying
      · constructor
        · intro j hj
          simp only [stepDep, handleDeploymentStatusChange, hc,
            if_pos hterm] at hj ⊢
          rw [statusOf_update]
          by_cases hji : j = i
          · subst hji
            have hp := h2 j hc
            have hn := h1 j hj
            rw [hn] at hp
            exact absurd hp (by simp)
          · rw [if_neg hji]
            exact h1 j hj
        · intro i2 hi2
          simp only [stepDep, handleDeploymentStatusChange, hc,
            if_pos hterm] at hi2
          exact absurd hi2 (by simp)
      · constructor
        · intro j hj
          simp only [stepDep, handleDeploymentStatusChange, hc,
            if_neg hterm] at hj ⊢
          exact h1 j hj
        · intro i2 hi2
          simp only [stepDep, handleDeploymentStatusChange, hc,
            if_neg hterm, Option.some.injEq] at hi2
          subst hi2
          simp only [stepDep, handleDeploymentStatusChange, hc,
            if_neg hterm]
          exact h2 _ hc

/-- Under the tracking invariant, one controller step moves every record
status only along the permitted relation. -/
theorem statusOf_step (s : DeploySys) (e : DepEvent) (h : DepInv s)
    (q : Nat) :
    recStatusStep (statusOf s.log q) (statusOf (stepDep s e).log q) := by
  obtain ⟨h1, h2⟩ := h
  cases e with
  | start t p c r u un now =>
    simp only [stepDep, handleDeploymentStart, saveBasicDeployment, statusOf]
    by_cases hq : s.nextId = q
    · rw [if_pos hq, h1 q (le_of_eq hq)]
      exact Or.inr rfl
    · rw [if_neg hq]
      exact recStatusStep_refl _
  | statusChange st now =>
    cases hc : s.currentDeploymentId with
    | none =>
      simp only [stepDep, handleDeploymentStatusChange, hc]
      exact recStatusStep_refl _
    | some i =>
      by_cases hterm : st ≠ DeployStatus.idle ∧ st ≠ DeployStatus.deploying
      · simp only [stepDep, handleDeploymentStatusChange, hc, if_pos hterm]
        rw [statusOf_update]
        by_cases hq : q = i
        · subst hq
          rw [if_pos rfl, h2 q hc]
          rfl
        · rw [if_neg hq]
          exact recStatusStep_refl _
      · simp only [stepDep, handleDeploymentStatusChange, hc, if_neg hterm]
        exact recStatusStep_refl _

/-- The tracking invariant holds after any event sequence. -/
theorem depInv_foldl (es : List DepEvent) (s : DeploySys) (h : DepInv s) :
    DepInv (es.foldl stepDep s) := by
  induction es generalizing s with
  | nil => exact h
  | cons e es2 ih => exact ih _ (depInv_step s e h)

/-- C4: along any sequence of controller transitions every deployment
record status is monotonic: a record appears only as pending, a pending
record may change at most to success or failed, and a terminal record is
never touched again (a later trigger only creates a fresh pending record
under a fresh id). -/
theorem deploymentRecord_status_monotonic (es : List DepEvent)
    (e : DepEvent) (q : Nat) :
    recStatusStep (statusOf (runDep es).log q)
      (statusOf (runDep (es ++ [e])).log q) := by
  have hrw : runDep (es ++ [e]) = stepDep (runDep es) e := by
    simp [runDep, List.foldl_append]
  rw [hrw]
  exact statusOf_step _ e (depInv_foldl es DeploySys.init depInv_init) q

/-- Clearing the single live interval always empties the live set, whatever
interval id an old cleanup closure may clear first. -/
theorem clearIntervalOn_single_erase (i : Nat) (cap : Option Nat) :
    (clearIntervalOn [i] cap).erase i = [] := by
  cases cap with
  | none => simp [clearIntervalOn]
  | some j =>
    by_cases hji : j = i
    · subst hji
      simp [clearIntervalOn]
    · have hij : i ≠ j := fun hh => hji hh.symm
      simp [clearIntervalOn, List.erase_cons, hij]

/-- The mounted monitoring view satisfies the timer invariant. -/
theorem monInv_init : MonInv MonState.init :=
  ⟨fun _ => ⟨rfl, rfl⟩, fun h => by simp [MonState.init] at h⟩

/-- Toggling the auto-refresh checkbox preserves the timer invariant: the
effect creates exactly one interval when turning on and clears the one live
interval when turning off. -/
theorem monInv_setAutoRefresh (b : Bool) (s : MonState) (h : MonInv s) :
    MonInv (setAutoRefresh b s) := by
  obtain ⟨hoff, hon⟩ := h
  by_cases hb : b = s.autoRefresh
  · simpa [setAutoRefresh, hb] using ⟨hoff, hon⟩
  · cases b with
    | true =>
      have hs : s.autoRefresh = false := by
        cases hsa : s.autoRefresh
        · rfl
        · exact absurd hsa.symm hb
      obtain ⟨hri, hlive⟩ := hoff hs
      constructor
      · intro hfalse
        simp [setAutoRefresh, hb] at hfalse
      · intro _
        refine ⟨s.nextId, ?_, ?_⟩ <;>
          simp [setAutoRefresh, hb, hlive, clearIntervalOn, hri]
        cases s.capturedRI <;> simp [clearIntervalOn]
    | false =>
      have hs : s.autoRefresh = true := by
        cases hsa : s.autoRefresh
        · exact absurd hsa.symm hb
        · rfl
      obtain ⟨i, hri, hlive⟩ := hon hs
      constructor
      · intro _
        constructor
        · simp [setAutoRefresh, hb, hri]
        · simp [setAutoRefresh, hb, hri, hlive,
            clearIntervalOn_single_erase]
      · intro htrue
        simp [setAutoRefresh, hb, hri] at htrue
  
/-- The timer invariant holds after any sequence of checkbox toggles. -/
theorem monInv_runMon (bs : List Bool) : MonInv (runMon bs) := by
  have hg : ∀ (l : List Bool) (s : MonState), MonInv s →
      MonInv (l.foldl (fun s2 b => setAutoRefresh b s2) s) := by
    intro l
    induction l with
    | nil => exact fun s hs => hs
    | cons b l2 ih => exact fun s hs => ih _ (monInv_setAutoRefresh b s hs)
  exact hg bs MonState.init monInv_init

/-- Turning the checkbox off always leaves the view with auto-refresh off. -/
theorem setAutoRefresh_false_off (s : MonState) :
    (setAutoRefresh false s).autoRefresh = false := by
  by_cases hb : false = s.autoRefresh
  · simp [setAutoRefresh, ← hb]
  · cases hri : s.refreshInterval <;> simp [setAutoRefresh, hb, hri]

/-- C8: in the auto-refresh polling view at most one repeating timer is
live at any time, and toggling auto-refresh off deterministically cancels
the pending timer, so no live timer remains whose callback could fire
afterwards. -/
theorem autorefresh_single_timer (bs : List Bool) :
    (runMon bs).live.length ≤ 1
    ∧ (runMon (bs ++ [false])).live = [] := by
  constructor
  · obtain ⟨hoff, hon⟩ := monInv_runMon bs
    cases hsa : (runMon bs).autoRefresh
    · rw [(hoff hsa).2]
      simp
    · obtain ⟨i, _, hl⟩ := hon hsa
      rw [hl]
      simp
  · have hrw : runMon (bs ++ [false]) = setAutoRefresh false (runMon bs) := by
      simp [runMon, List.foldl_append]
    rw [hrw]
    exact ((monInv_setAutoRefresh false (runMon bs) (monInv_runMon bs)).1
      (setAutoRefresh_false_off (runMon bs))).2
